import Mathlib

/-!
Verification development for the samwaad call-session pipeline
(backend/app/api/websocket.py, backend/app/api/tasks.py,
backend/app/services/ai_service.py, backend/app/services/stt_service.py).

The Python code is shallowly embedded: byte buffers are `List Nat`
(each element a byte value), 16-bit samples are `Int`, Python floats are
modelled as exact rationals `ℚ`, fallible code returns `Except`/`Option`,
and the websocket message loop is a step function folded over the list of
incoming client messages.  External backends (speech-to-text, generative
model, calendar) are supplied as already-decoded oracle values in an
environment record, mirroring exactly how their results flow through the
handlers.
-/

namespace Samwaad

/-! ### Audio byte level (websocket.py, `save_audio_to_wav` helpers)

`struct.unpack('h', ...)` decodes consecutive little-endian byte pairs as
signed 16-bit integers; `struct.unpack('f', ...)` decodes 4-byte floats
(the decoded float values are modelled as rationals). -/

/-- Decode one little-endian byte pair as a signed 16-bit integer,
as `struct.unpack` with format `h` does. -/
def int16OfBytes (lo hi : Nat) : Int :=
  let u : Nat := lo + 256 * hi
  if u < 32768 then (u : Int) else (u : Int) - 65536

/-- Decode a byte buffer into signed 16-bit samples (little-endian pairs);
a trailing odd byte is not decoded. -/
def bytesToInt16 : List Nat → List Int
  | lo :: hi :: rest => int16OfBytes lo hi :: bytesToInt16 rest
  | _ => []

/-- Python `int()` applied to a rational: truncation toward zero. -/
def pyInt (q : ℚ) : Int :=
  if 0 ≤ q then ⌊q⌋ else ⌈q⌉

/-- Clamp a decoded Float32 sample into [-1, 1]:
`max(-1.0, min(1.0, sample))`. -/
def clampUnit (x : ℚ) : ℚ :=
  max (-1) (min 1 x)

/-- Numeric core of `convert_float32_to_int16` (websocket.py line 53):
each decoded float sample becomes `int(max(-1.0, min(1.0, sample)) * 32767)`.
The IEEE-754 byte decoding performed by `struct.unpack('f', ...)` is
abstracted: the function acts on the decoded sample values, embedded as
rationals. -/
def convert_float32_to_int16 (samples : List ℚ) : List Int :=
  samples.map (fun x => pyInt (clampUnit x * 32767))

/-- Byte trimming on the Float32 path (websocket.py lines 70-71): when the
buffer length is not a multiple of 4, the trailing `len % 4` bytes are
dropped before conversion. -/
def trimToFloat32Boundary (bs : List Nat) : List Nat :=
  bs.take (bs.length - bs.length % 4)

/-- Byte trimming on the Int16 path (websocket.py lines 75-77): a trailing
odd byte is dropped. -/
def trimToInt16Boundary (bs : List Nat) : List Nat :=
  bs.take (bs.length - bs.length % 2)

/-- Peak absolute amplitude `max(abs(s) for s in samples)` over the decoded
samples (callers guarantee the list is non-empty). -/
def maxAmplitude (samples : List Int) : Int :=
  (samples.map (fun s => |s|)).foldl max 0

/-- Amplification step (websocket.py line 96): every sample is scaled by
20 and clamped into the signed 16-bit range,
`min(32767, max(-32768, s * 20))`. -/
def amplify20 (samples : List Int) : List Int :=
  samples.map (fun s => min 32767 (max (-32768) (s * 20)))

/-- Linear-interpolation resampler (websocket.py lines 102-117): the output
length is `int(len(samples) * (16000 / sample_rate))`, and output index `i`
interpolates between the floor neighbour `int(i / ratio)` and the ceil
neighbour `min(floor + 1, len(samples) - 1)` by the fractional offset.
Output lists are truncated to `Int` sample values with Python `int()`. -/
def resampleTo16k (samples : List Int) (sampleRate : Nat) : List Int :=
  let n := samples.length
  let newLength := n * 16000 / sampleRate
  (List.range newLength).map (fun (i : Nat) =>
    let oldIndex : ℚ := (i : ℚ) * sampleRate / 16000
    let indexFloor : Nat := (i * sampleRate) / 16000
    let indexCeil : Nat := min (indexFloor + 1) (n - 1)
    let fraction : ℚ := oldIndex - indexFloor
    pyInt ((samples.getD indexFloor 0 : ℚ) * (1 - fraction)
      + (samples.getD indexCeil 0 : ℚ) * fraction))

/-- Result of a successful `save_audio_to_wav`: the final 16 kHz sample
buffer and the reported duration `len(audio_bytes) / (2 * 16000)`. -/
structure SavedAudio where
  samples : List Int
  duration : ℚ
  deriving Repr, DecidableEq

/-- Embedding of `save_audio_to_wav` (websocket.py lines 57-130).  Raised
`ValueError`s become `Except.error` carrying the message string.
`floatDecode` stands for `struct.unpack('f', ...)`, the IEEE-754 decoding
of the (already 4-byte-aligned) buffer into float sample values; it is
passed in because the byte-to-float bit decoding is external
(`struct`), while everything numeric after it is embedded exactly. -/
def save_audio_to_wav (audioBytes : List Nat) (sampleRate : Nat)
    (isFloat32 : Bool) (floatDecode : List Nat → List ℚ) :
    Except String SavedAudio :=
  if audioBytes.length = 0 then
    Except.error "No audio data to save"
  else
    let samples :=
      if isFloat32 then
        convert_float32_to_int16 (floatDecode (trimToFloat32Boundary audioBytes))
      else
        bytesToInt16 (trimToInt16Boundary audioBytes)
    if samples.length = 0 then
      -- Python: `max()` over an empty sequence raises ValueError
      Except.error "max() arg is an empty sequence"
    else
      let amp := maxAmplitude samples
      if amp < 10 then
        Except.error ("Audio is silent or corrupted (max amplitude: "
          ++ toString amp ++ "). Please check microphone.")
      else
        let samples := if amp < 1000 then amplify20 samples else samples
        let samples := if sampleRate ≠ 16000 then resampleTo16k samples sampleRate
                       else samples
        .ok { samples := samples, duration := (2 * samples.length : ℚ) / (2 * 16000) }

/-! ### Insight extraction (ai_service.py)

The generative backend returns JSON text.  A malformed or failed response
is modelled as `none`; a parsed JSON object is modelled as a record of
`JField`s: a key can be missing, present with the JSON value `null`, or
present with a value.  The Python fill loop (ai_service.py line 99) tests
`if key not in insights` — key presence only — so a present-but-null key
is carried through as `null`, undefaulted; present non-null values are
carried through typed. -/

/-- One key of a parsed JSON object: absent, present with value `null`,
or present with a (typed) value. -/
inductive JField (α : Type) where
  | missing
  | null
  | val (a : α)
  deriving Repr, DecidableEq

/-- The fill performed by ai_service.py lines 98-100 on one key: a
missing key gets the default `d`, a present key — `null` included — is
kept as it is.  The result is a Python dict value, possibly `None`
(modelled as `Option.none`). -/
def JField.filled (f : JField α) (d : Option α) : Option α :=
  match f with
  | .missing => d
  | .null => none
  | .val a => some a

/-- Sentiment sub-object of the insights schema. -/
structure Sentiment where
  overall_sentiment : String
  reasoning : String
  deriving Repr, DecidableEq

/-- Action-item sub-object of the insights schema. -/
structure ActionItem where
  task : String
  owner : String
  deadline : String
  deriving Repr, DecidableEq

/-- Chapter sub-object of the insights schema. -/
structure Chapter where
  title : String
  summary : String
  deriving Repr, DecidableEq

/-- The insights dict returned by `extract_meeting_insights`: every
documented key is present, but — since the fill only defaults missing
keys — a key's value can still be the JSON `null` carried over from the
response (`Option.none` here). -/
structure Insights where
  title : Option String
  summary : Option String
  sentiment : Option Sentiment
  attendees : Option (List String)
  action_items : Option (List ActionItem)
  key_decisions : Option (List String)
  questions_asked : Option (List String)
  chapters : Option (List Chapter)
  deriving Repr, DecidableEq

/-- A parsed backend response: each documented key may be missing,
explicitly `null`, or carry a value. -/
structure RawInsights where
  title : JField String := .missing
  summary : JField String := .missing
  sentiment : JField Sentiment := .missing
  attendees : JField (List String) := .missing
  action_items : JField (List ActionItem) := .missing
  key_decisions : JField (List String) := .missing
  questions_asked : JField (List String) := .missing
  chapters : JField (List Chapter) := .missing
  deriving Repr, DecidableEq

/-- Embedding of `AIService._default_insights` (ai_service.py lines
304-318); none of its values is `null`. -/
def default_insights : Insights where
  title := some "Meeting Analysis"
  summary := some "### Abstract\nNo summary could be generated.\n\n### Key Points\n- Analysis could not be completed.\n\n### Next Steps\nN/A"
  sentiment := some { overall_sentiment := "UNKNOWN", reasoning := "Analysis could not be completed." }
  attendees := some []
  action_items := some []
  key_decisions := some []
  questions_asked := some []
  chapters := some []

/-- Response-handling core of `extract_meeting_insights` (ai_service.py
lines 86-107): a failed call or unparseable response (`none`) falls back
to `_default_insights`; a parsed response has each missing key filled
from `_default_insights` (line 99 tests `if key not in insights` only, so
a present-but-null key stays `null`). -/
def fill_insights (resp : Option RawInsights) : Insights :=
  match resp with
  | none => default_insights
  | some r =>
    { title := r.title.filled default_insights.title
      summary := r.summary.filled default_insights.summary
      sentiment := r.sentiment.filled default_insights.sentiment
      attendees := r.attendees.filled default_insights.attendees
      action_items := r.action_items.filled default_insights.action_items
      key_decisions := r.key_decisions.filled default_insights.key_decisions
      questions_asked := r.questions_asked.filled default_insights.questions_asked
      chapters := r.chapters.filled default_insights.chapters }

/-! ### Transcription (stt_service.py) -/

/-- One utterance of the transcript, as built by `transcribe_audio_file`. -/
structure Utterance where
  text : String
  start : ℚ
  stop : ℚ
  confidence : ℚ
  speaker : String
  deriving Repr, DecidableEq

/-- One recognized word with timing and speaker tag. -/
structure WordInfo where
  word : String
  start : ℚ
  stop : ℚ
  speaker : Nat
  deriving Repr, DecidableEq

/-- One alternative of a recognition result from the backend. -/
structure RecognitionAlternative where
  transcript : String
  confidence : ℚ
  words : List WordInfo
  deriving Repr, DecidableEq

/-- One recognition result from the backend. -/
structure RecognitionResult where
  alternatives : List RecognitionAlternative
  deriving Repr, DecidableEq

/-- Structured transcription result returned by `transcribe_audio_file`. -/
structure TranscriptResult where
  id : String
  text : String
  confidence : ℚ
  audio_duration : Int
  utterances : List Utterance
  words : List WordInfo
  deriving Repr, DecidableEq

/-- Group consecutive words sharing a speaker tag into utterances
(stt_service.py lines 126-158).  The fold carries the current speaker, the
words of hitherto accumulated current utterance, its start time, and the end
time of the previous word. -/
def groupUtterances (wordsInfo : List WordInfo) : List Utterance :=
  match wordsInfo with
  | [] => []
  | w0 :: rest =>
    let init : Nat × List String × ℚ × ℚ × List Utterance :=
      (w0.speaker, [], w0.start, w0.start, [])
    let step := fun (acc : Nat × List String × ℚ × ℚ × List Utterance)
        (w : WordInfo) =>
      let (curSpeaker, curText, curStart, prevEnd, utts) := acc
      if w.speaker ≠ curSpeaker then
        (w.speaker, [w.word], w.start, w.stop,
          utts ++ [{ text := " ".intercalate curText.reverse
                     start := curStart
                     stop := prevEnd
                     confidence := 9 / 10
                     speaker := "Speaker " ++ toString curSpeaker }])
      else
        (curSpeaker, w.word :: curText, curStart, w.stop, utts)
    let (lastSpeaker, lastText, lastStart, _, utts) := (w0 :: rest).foldl step init
    if lastText ≠ [] then
      utts ++ [{ text := " ".intercalate lastText.reverse
                 start := lastStart
                 stop := ((w0 :: rest).getLast (by simp)).stop
                 confidence := 9 / 10
                 speaker := "Speaker " ++ toString lastSpeaker }]
    else utts

/-- Result-processing part of `transcribe_audio_file` (stt_service.py lines
83-188), after the backend's `recognize` call returned `results`.  An empty
result list is not an error: it yields an empty-text, zero-utterance
transcript (lines 90-98).  A non-empty result whose first alternative list
is empty raises `IndexError` in Python (re-raised, line 194), modelled as
`Except.error`. -/
def transcribe_audio_file (results : List RecognitionResult) (duration : ℚ) :
    Except String TranscriptResult :=
  if results.isEmpty then
    .ok { id := "google-cloud-speech"
          text := ""
          confidence := 0
          audio_duration := pyInt (duration * 1000)
          utterances := []
          words := [] }
  else
    match results.mapM (fun r => r.alternatives.head?) with
    | none => .error "list index out of range"
    | some alts =>
      let wordsInfo := (alts.map (fun a => a.words)).flatten
      let utterances := groupUtterances wordsInfo
      let fullText := " ".intercalate (alts.map (fun a => a.transcript))
      let audioDuration :=
        match wordsInfo.getLast? with
        | some w => pyInt (w.stop * 1000)
        | none => pyInt (duration * 1000)
      .ok { id := "google-cloud-speech"
            text := fullText
            confidence := (alts.headD ⟨"", 0, []⟩).confidence
            audio_duration := audioDuration
            utterances := utterances
            words := wordsInfo }

/-- Transcript-to-prompt text of `extract_meeting_insights` (ai_service.py
line 45): speaker-labelled utterance lines joined with newlines. -/
def insightsFullText (t : TranscriptResult) : String :=
  "\n".intercalate (t.utterances.map
    (fun u => "Speaker " ++ u.speaker ++ ": " ++ u.text))

/-- Embedding of `extract_meeting_insights` (ai_service.py lines 33-107):
an empty or very short speaker-labelled text short-circuits to
`_default_insights` without calling the backend; otherwise the backend
response is parsed and its missing keys are filled with defaults. -/
def extract_meeting_insights (t : TranscriptResult)
    (resp : Option RawInsights) : Insights :=
  let fullText := insightsFullText t
  if fullText.length < 20 then default_insights
  else fill_insights resp

/-! ### Actionable task extraction (ai_service.py, `extract_actionable_tasks`) -/

/-- Minimal JSON value model for what `json.loads` can return for the
actionable-task response. -/
inductive Json where
  | arr (xs : List Json)
  | obj (kvs : List (String × Json))
  | str (s : String)
  | num (n : Int)
  | bool (b : Bool)
  | null

/-- Whether a JSON value is an array (what the code's `List[Dict]`
annotation promises). -/
def Json.isArr : Json → Bool
  | .arr _ => true
  | _ => false

/-- Embedding of `extract_actionable_tasks` (ai_service.py lines 321-375).
An empty transcript text returns `[]` before any backend call; a failed
backend call or a response that is not parseable JSON (`none`) is caught
and returns `[]`; otherwise the parsed JSON value is returned as-is —
the code performs no shape check on it. -/
def extract_actionable_tasks (fullText : String) (resp : Option Json) : Json :=
  if fullText = "" then Json.arr []
  else
    match resp with
    | none => Json.arr []
    | some j => j

/-! ### Task approval endpoint (tasks.py, `approve_task`)

The task store is an association list from task id to record; `db.commit`
is modelled by returning the updated store.  An HTTP error response is the
`Except.error` branch and leaves the store as it was. -/

/-- Persisted fields of a `Task` row that the approval endpoint touches. -/
structure TaskRec where
  status : String
  approved_at : Option String := none
  error_message : Option String := none
  deriving Repr, DecidableEq

/-- Task store: finite map from id to task record, as an association
list. -/
def TaskStore := List (Nat × TaskRec)

/-- First matching record for an id (`query.filter(Task.id == task_id)
.first()`). -/
def TaskStore.find (store : TaskStore) (id : Nat) : Option TaskRec :=
  (List.find? (fun p => p.1 = id) store).map (fun p => p.2)

/-- Replace the record stored under an id. -/
def TaskStore.set (store : TaskStore) (id : Nat) (t : TaskRec) : TaskStore :=
  List.map (fun p => if p.1 = id then (id, t) else p) store

/-- An HTTP error response (`HTTPException`). -/
structure HttpError where
  statusCode : Nat
  detail : String
  deriving Repr, DecidableEq

/-- Body of the endpoint's success response. -/
structure ApproveResponse where
  task_id : Nat
  status : String
  message : String
  deriving Repr, DecidableEq

/-- Embedding of `approve_task` (tasks.py lines 115-153).  `approved` and
`reason` are the `TaskApproval` payload; `now` stands for
`datetime.utcnow()`.  The endpoint looks the task up, 404s when absent,
and otherwise unconditionally overwrites `status` (no check of the current
status is performed before writing). -/
def approve_task (store : TaskStore) (task_id : Nat) (approved : Bool)
    (reason : Option String) (now : String) :
    TaskStore × Except HttpError ApproveResponse :=
  match store.find task_id with
  | none =>
    (store, .error { statusCode := 404
                     detail := "Task with ID " ++ toString task_id ++ " not found" })
  | some t =>
    let t' :=
      if approved then
        { t with status := "approved", approved_at := some now }
      else
        { t with status := "cancelled"
                 error_message :=
                   match reason with
                   | some r => if r ≠ "" then some ("Rejected: " ++ r) else t.error_message
                   | none => t.error_message }
    (store.set task_id t',
      .ok { task_id := task_id
            status := t'.status
            message := if approved then "Task approved and queued for execution"
                       else "Task rejected" })

/-! ### Naive datetimes, timezone localization, and the calendar dispatch
(websocket.py lines 252-294)

`dateutil.parser.isoparse` and `pytz` are external libraries; their
behaviour on the inputs the dispatcher feeds them is modelled below from
their documented semantics (ISO-8601 parsing; IANA tzdata offsets). -/

/-- A naive wall-clock datetime (no timezone attached). -/
structure NaiveDateTime where
  year : Int
  month : Int
  day : Int
  hour : Int
  minute : Int
  second : Int
  deriving Repr, DecidableEq

/-- Days since 1970-01-01 of a civil date (proleptic Gregorian calendar,
the standard days-from-civil algorithm). -/
def daysFromCivil (y m d : Int) : Int :=
  let y := if m ≤ 2 then y - 1 else y
  let era := (if 0 ≤ y then y else y - 399) / 400
  let yoe := y - era * 400
  let mp := (m + 9) % 12
  let doy := (153 * mp + 2) / 5 + d - 1
  let doe := yoe * 365 + yoe / 4 - yoe / 100 + doy
  era * 146097 + doe - 719468

/-- Absolute minute count of a naive datetime (minutes since the epoch
when read as UTC); used to compare instants. -/
def NaiveDateTime.toMinutes (dt : NaiveDateTime) : Int :=
  (daysFromCivil dt.year dt.month dt.day) * 1440 + dt.hour * 60 + dt.minute

/-- Split a character list on a separator character (groups between
separators, empty groups preserved). -/
def splitOnChar (sep : Char) : List Char → List (List Char)
  | [] => [[]]
  | c :: rest =>
    let groups := splitOnChar sep rest
    if c = sep then [] :: groups
    else
      match groups with
      | [] => [[c]]
      | g :: gs => (c :: g) :: gs

/-- Parse a non-empty all-digit character list as a decimal number. -/
def digitsToNat (cs : List Char) : Option Nat :=
  if cs.isEmpty then none
  else cs.foldl (fun acc c =>
    acc.bind (fun n => if c.isDigit then some (n * 10 + (c.toNat - 48)) else none))
    (some 0)

/-- Modelled from the spec: `dateutil.parser.isoparse` on the extractor's
naive start-time strings (format `YYYY-MM-DDTHH:MM:SS`); the library
itself is external to src/.  A string not of this shape is a parse
failure (`None` here, an exception there, caught by the dispatcher's
per-task handler). -/
def isoparse (s : String) : Option NaiveDateTime :=
  match splitOnChar 'T' s.toList with
  | [date, time] =>
    match splitOnChar '-' date, splitOnChar ':' time with
    | [ys, ms, ds], [hs, mins, ss] =>
      match digitsToNat ys, digitsToNat ms, digitsToNat ds,
          digitsToNat hs, digitsToNat mins, digitsToNat ss with
      | some y, some mo, some d, some h, some mi, some sec =>
        if 1 ≤ mo ∧ mo ≤ 12 ∧ 1 ≤ d ∧ d ≤ 31 ∧ h ≤ 23 ∧ mi ≤ 59 ∧ sec ≤ 59 then
          some ⟨y, mo, d, h, mi, sec⟩
        else none
      | _, _, _, _, _, _ => none
    | _, _ => none
  | _ => none

/-- Modelled from the spec: `pytz` localization offsets (IANA tzdata) for
the timezones exercised here; `pytz` is an external library, not part of
src/.  For America/New_York in 2025 the offset is UTC-4 (EDT) between
2025-03-09 02:00 and 2025-11-02 02:00 local time and UTC-5 (EST)
otherwise; an unknown zone name makes `pytz.timezone` raise, modelled as
`none`. -/
def tzOffsetMinutes (tz : String) (dt : NaiveDateTime) : Option Int :=
  if tz = "UTC" then some 0
  else if tz = "America/New_York" then
    if dt.year = 2025 then
      let t := dt.toMinutes
      let dstStart := NaiveDateTime.toMinutes ⟨2025, 3, 9, 2, 0, 0⟩
      let dstEnd := NaiveDateTime.toMinutes ⟨2025, 11, 2, 2, 0, 0⟩
      if dstStart ≤ t ∧ t < dstEnd then some (-240) else some (-300)
    else none
  else none

/-- A structured actionable intent, as the dispatcher reads it off the
parsed task object via `.get(...)` with defaults (websocket.py lines
252-277). -/
structure TaskIntent where
  ttype : String
  summary : String
  description : String := "Event scheduled by Samwaad AI."
  start_time : String
  duration_minutes : Nat := 30
  attendees : List String := []
  deriving Repr, DecidableEq

/-- A create-event request as issued to the calendar backend. -/
structure CalendarCall where
  summary : String
  description : String
  startInstantUTCMinutes : Int
  duration_minutes : Nat
  attendees : List String
  timezone : String
  deriving Repr, DecidableEq

/-- Calendar dispatch of one CREATE_CALENDAR_EVENT intent (websocket.py
lines 258-277): parse the naive start time, localize it with the
session's locked timezone, and call `create_event` with the resulting
aware instant.  Any exception inside (parse failure, unknown timezone) is
caught per task (line 291), modelled as `none`. -/
def dispatchCalendarIntent (task : TaskIntent) (userTimezone : String) :
    Option CalendarCall :=
  match isoparse task.start_time with
  | none => none
  | some naive =>
    match tzOffsetMinutes userTimezone naive with
    | none => none
    | some off =>
      some { summary := task.summary
             description := task.description
             startInstantUTCMinutes := naive.toMinutes - off
             duration_minutes := task.duration_minutes
             attendees := task.attendees
             timezone := userTimezone }

/-! ### The websocket session loop (websocket.py, `websocket_endpoint`)

The loop is embedded as a step function over an explicit session state,
folded over the list of incoming client messages.  External backends are
provided by an environment record of already-decoded oracle values, used
exactly where the handler awaits the corresponding service.  Side effects
visible in the claims — events sent to the client, the persisted `Call.status`,
and the create-event requests issued to the calendar backend — are
recorded in the state. -/

/-- Client-to-server messages of the socket protocol. -/
inductive ClientMsg where
  | audioConfig (sampleRate : Option Nat) (isFloat32 : Option Bool)
      (timezone : Option String)
  | startRecording
  | stopRecording
  | audioChunk (bytes : List Nat)
  deriving Repr, DecidableEq

/-- Server-to-client events of the socket protocol. -/
inductive ServerEvent where
  | connected
  | recordingStarted
  | processingStarted
  | taskExecuted (summary : String)
  | callCompleted
  | error (message : String)
  deriving Repr, DecidableEq

/-- Whether an event is an `error` event. -/
def ServerEvent.isError : ServerEvent → Bool
  | .error _ => true
  | _ => false

/-- Oracle values for the external backends, consumed by the
`stop_recording` processing sequence. -/
structure Env where
  /-- The `struct.unpack('f', ...)` decoding oracle for Float32 audio. -/
  floatDecode : List Nat → List ℚ := fun _ => []
  /-- Outcome of `stt_service.transcribe_audio_file` on the saved WAV. -/
  transcript : Except String TranscriptResult
  /-- Parsed generative response for `extract_meeting_insights`. -/
  insightsResp : Option RawInsights
  /-- Actionable tasks decoded from `extract_actionable_tasks` output. -/
  actionableTasks : List TaskIntent
  /-- Result of `calendar_service.authenticate()`. -/
  calendarAuth : Bool
  /-- Whether `calendar_service.create_event` returns a truthy result. -/
  calendarCreateOk : Bool

/-- Per-session mutable state of `websocket_endpoint` (websocket.py lines
158-163) together with the recorded observable effects. -/
structure SessionState where
  sampleRate : Nat := 48000
  isFloat32 : Bool := false
  userTimezone : String := "UTC"
  audioBuffer : List (List Nat) := []
  /-- Persisted `Call.status`; `"in_progress"` at creation (line 153). -/
  callStatus : String := "in_progress"
  /-- Events sent over the socket, in order. -/
  events : List ServerEvent := [ServerEvent.connected]
  /-- Create-event requests issued to the calendar backend, in order. -/
  calendarCalls : List CalendarCall := []
  /-- Whether the loop has been exited (break or exception handler). -/
  done : Bool := false

/-- The `audio_config` handler (websocket.py lines 179-192): `sampleRate`
and `isFloat32` are overwritten from every config message (with defaults
48000 / Int16 for absent keys); the timezone is updated only while it is
still the default `"UTC"` and the incoming value is non-empty. -/
def applyAudioConfig (st : SessionState) (sampleRate : Option Nat)
    (isFloat32 : Option Bool) (timezone : Option String) : SessionState :=
  let st := { st with sampleRate := sampleRate.getD 48000
                      isFloat32 := isFloat32.getD false }
  match timezone with
  | some tz => if tz ≠ "" ∧ st.userTimezone = "UTC" then
      { st with userTimezone := tz } else st
  | none => st

/-- The calendar-task loop body (websocket.py lines 252-294) folded over
the actionable tasks: non-CREATE_CALENDAR_EVENT tasks are skipped; with a
failed calendar authentication the task is skipped; otherwise the naive
start time is parsed and localized and `create_event` is called, and a
truthy result additionally emits a `task_executed` event.  A per-task
exception (parse failure, unknown timezone) is caught and logged only. -/
def runCalendarTasks (env : Env) (st : SessionState) : SessionState :=
  env.actionableTasks.foldl (fun st task =>
    if task.ttype = "CREATE_CALENDAR_EVENT" then
      if env.calendarAuth then
        match dispatchCalendarIntent task st.userTimezone with
        | none => st
        | some call =>
          let st := { st with calendarCalls := st.calendarCalls ++ [call] }
          if env.calendarCreateOk then
            { st with events := st.events
                ++ [ServerEvent.taskExecuted ("Created event: " ++ task.summary)] }
          else st
      else st
    else st) st

/-- The `stop_recording` handler (websocket.py lines 201-356).  An empty
buffer raises outside the inner `try` and is handled by the outer
exception handler (status becomes `"failed"`, one `error` event).  A
`ValueError` from `save_audio_to_wav` is caught by the inner
`except ValueError` (line 350): one `error` event, loop break, status
untouched.  A transcription failure propagates to the outer handler.  On
success the insights are computed, the calendar tasks dispatched, the call
row is committed with status `"completed"`, and one `call_completed`
event is sent.  `afterSave` is the continuation after `save_audio_to_wav`
returned (websocket.py lines 217-356): the inner `try`'s `except
ValueError` branch on error, the transcription/insights/dispatch/commit
sequence on success. -/
def afterSave (env : Env) (st : SessionState) :
    Except String SavedAudio → SessionState
  | .error msg =>
    { st with events := st.events ++ [ServerEvent.error msg], done := true }
  | .ok _ =>
    match env.transcript with
    | .error msg =>
      { st with callStatus := "failed"
                events := st.events ++ [ServerEvent.error msg]
                done := true }
    | .ok transcript =>
      let _insights := extract_meeting_insights transcript env.insightsResp
      let st := runCalendarTasks env st
      let st := { st with callStatus := "completed" }
      { st with events := st.events ++ [ServerEvent.callCompleted], done := true }

/-- The `stop_recording` handler entry (websocket.py lines 201-217): send
`processing_started`, fail the session on an empty buffer (the raise at
line 208 is outside the inner `try`), otherwise join the buffered chunks,
save, and continue with `afterSave`. -/
def handleStopRecording (env : Env) (st : SessionState) : SessionState :=
  let st := { st with events := st.events ++ [ServerEvent.processingStarted] }
  if st.audioBuffer.isEmpty then
    { st with callStatus := "failed"
              events := st.events
                ++ [ServerEvent.error "No audio data received. Check microphone permissions."]
              done := true }
  else
    afterSave env st
      (save_audio_to_wav st.audioBuffer.flatten st.sampleRate st.isFloat32
        env.floatDecode)

/-- One iteration of the websocket receive loop (websocket.py lines
172-361); after the loop has been left no further message is processed. -/
def sessionStep (env : Env) (st : SessionState) (msg : ClientMsg) :
    SessionState :=
  if st.done then st
  else
    match msg with
    | .audioConfig sr f32 tz => applyAudioConfig st sr f32 tz
    | .startRecording =>
      { st with events := st.events ++ [ServerEvent.recordingStarted] }
    | .stopRecording => handleStopRecording env st
    | .audioChunk bytes =>
      if bytes.length > 0 then
        { st with audioBuffer := st.audioBuffer ++ [bytes] }
      else st

/-- Run a whole session: the initial state (fresh `Call` row in
`"in_progress"`, `connected` event already sent) folded through the
incoming messages. -/
def runSession (env : Env) (msgs : List ClientMsg) : SessionState :=
  msgs.foldl (sessionStep env) {}

/-! ### Concrete scenarios from the specification -/

/-- Three seconds of 48 kHz Int16 silence: `48000 * 2 * 3 = 2 * 144000`
zero bytes (end-to-end scenario A). -/
def silentChunk : List Nat := List.replicate (2 * 144000) 0

/-- Message sequence of end-to-end scenario A: an
`audio_config{sampleRate:48000,isFloat32:false}`, the silent audio, then
`stop_recording`. -/
def scenarioAMsgs : List ClientMsg :=
  [ClientMsg.audioConfig (some 48000) (some false) none,
   ClientMsg.audioChunk silentChunk,
   ClientMsg.stopRecording]

/-- Environment whose backends are never successfully reached (scenario A
fails before any backend call, so these values are immaterial). -/
def nullEnv : Env where
  transcript := Except.error "transcription backend unreachable"
  insightsResp := none
  actionableTasks := []
  calendarAuth := false
  calendarCreateOk := false

/-- Two audio_config messages with differing rate/encoding/timezone, to
probe the claimed locking of the first configuration. -/
def twoConfigMsgs : List ClientMsg :=
  [ClientMsg.audioConfig (some 48000) (some false) (some "America/New_York"),
   ClientMsg.audioConfig (some 44100) (some true) (some "Asia/Tokyo")]

/-- A single loud Int16 sample (value 10000), little-endian bytes. -/
def loudChunk : List Nat := [16, 39]

/-- The actionable intent of end-to-end scenario C: a calendar event with
a naive start-time string. -/
def scenarioCIntent : TaskIntent where
  ttype := "CREATE_CALENDAR_EVENT"
  summary := "Design sync"
  start_time := "2025-06-10T15:00:00"

/-- A successful transcription with no recognized speech. -/
def trivialTranscript : TranscriptResult where
  id := "google-cloud-speech"
  text := ""
  confidence := 0
  audio_duration := 0
  utterances := []
  words := []

/-- Environment of end-to-end scenario C: transcription succeeds, the
extractor produces the calendar intent, and the calendar backend
authenticates and creates the event. -/
def scenarioCEnv : Env where
  transcript := Except.ok trivialTranscript
  insightsResp := none
  actionableTasks := [scenarioCIntent]
  calendarAuth := true
  calendarCreateOk := true

/-- Message sequence of end-to-end scenario C: a 16 kHz Int16 config
locking timezone America/New_York, one loud chunk, then
`stop_recording`. -/
def scenarioCMsgs : List ClientMsg :=
  [ClientMsg.audioConfig (some 16000) (some false) (some "America/New_York"),
   ClientMsg.audioChunk loudChunk,
   ClientMsg.stopRecording]

/-- A parsed generative response whose `title` key is present with the
JSON value `null` (`{"title": null}`); every other documented key is
missing. -/
def nullTitleResp : RawInsights where
  title := JField.null

/-- A transcript whose speaker-labelled text is longer than 20
characters, so `extract_meeting_insights` does not short-circuit and
consults the backend response. -/
def longTranscript : TranscriptResult where
  id := "google-cloud-speech"
  text := "let us schedule the quarterly planning review meeting"
  confidence := 0
  audio_duration := 0
  utterances := [{ text := "let us schedule the quarterly planning review meeting"
                   start := 0
                   stop := 0
                   confidence := 0
                   speaker := "Speaker 1" }]
  words := []

/-- Run a session over a list of `audio_config` messages only (rate,
encoding, timezone components given as triples). -/
def runConfigs (env : Env) (st : SessionState)
    (cfgs : List (Option Nat × Option Bool × Option String)) : SessionState :=
  cfgs.foldl (fun s c => sessionStep env s (ClientMsg.audioConfig c.1 c.2.1 c.2.2)) st

/-! ## Helper lemmas -/

theorem bytesToInt16_replicate_zero (n : Nat) :
    bytesToInt16 (List.replicate (2 * n) 0) = List.replicate n 0 := by
  induction n with
  | zero => rfl
  | succ k ih =>
    have h : 2 * (k + 1) = (2 * k) + 1 + 1 := by ring
    rw [h, List.replicate_succ, List.replicate_succ, List.replicate_succ,
      bytesToInt16, ih]
    rfl

theorem maxAmplitude_replicate_zero (n : Nat) :
    maxAmplitude (List.replicate n 0) = 0 := by
  induction n with
  | zero => rfl
  | succ k ih =>
    rw [List.replicate_succ]
    simpa [maxAmplitude] using ih

theorem save_silence_error (n : Nat) (hn : n ≠ 0) (r : Nat) (d : List Nat → List ℚ) :
    save_audio_to_wav (List.replicate (2 * n) 0) r false d =
      Except.error "Audio is silent or corrupted (max amplitude: 0). Please check microphone." := by
  have hlen : (List.replicate (2 * n) (0 : Nat)).length = 2 * n := List.length_replicate _ _
  have htrim : trimToInt16Boundary (List.replicate (2 * n) 0) = List.replicate (2 * n) 0 := by
    simp [trimToInt16Boundary, hlen, Nat.mul_mod_right]
  have hne : (List.replicate (2 * n) (0 : Nat)).length ≠ 0 := by
    simpa [hlen] using Nat.mul_ne_zero ((by decide : (2 : ℕ) ≠ 0)) hn
  have h10 : (0 : Int) < 10 := by norm_num
  rw [save_audio_to_wav, if_neg hne]
  simp only [Bool.false_eq_true, if_false, htrim, bytesToInt16_replicate_zero,
    List.length_replicate]
  rw [if_neg hn, maxAmplitude_replicate_zero, if_pos h10]
  rfl

theorem sessionStep_chunk (env : Env) (st : SessionState) (bytes : List Nat)
    (h : st.done = false) (hb : bytes.length > 0) :
    sessionStep env st (ClientMsg.audioChunk bytes) =
      { st with audioBuffer := st.audioBuffer ++ [bytes] } := by
  rw [sessionStep, h]
  simp only [Bool.false_eq_true, if_false]
  rw [if_pos hb]

theorem sessionStep_stop (env : Env) (st : SessionState) (h : st.done = false) :
    sessionStep env st ClientMsg.stopRecording = handleStopRecording env st := by
  rw [sessionStep, h]
  simp only [Bool.false_eq_true, if_false]

theorem sessionStep_config (env : Env) (st : SessionState) (sr : Option Nat)
    (f32 : Option Bool) (tzo : Option String) (h : st.done = false) :
    sessionStep env st (ClientMsg.audioConfig sr f32 tzo) =
      applyAudioConfig st sr f32 tzo := by
  rw [sessionStep, h]
  simp only [Bool.false_eq_true, if_false]

theorem applyAudioConfig_fields (st : SessionState) (sr : Option Nat)
    (f32 : Option Bool) (tzo : Option String) :
    (applyAudioConfig st sr f32 tzo).sampleRate = sr.getD 48000 ∧
    (applyAudioConfig st sr f32 tzo).isFloat32 = f32.getD false ∧
    (applyAudioConfig st sr f32 tzo).userTimezone =
      (match tzo with
       | some t => if t ≠ "" ∧ st.userTimezone = "UTC" then t else st.userTimezone
       | none => st.userTimezone) ∧
    (applyAudioConfig st sr f32 tzo).done = st.done := by
  cases tzo <;> simp only [applyAudioConfig] <;> [skip; split_ifs] <;>
    simp_all

theorem runConfigs_fields (env : Env)
    (cfgs : List (Option Nat × Option Bool × Option String))
    (st : SessionState) (h : st.done = false) :
    (runConfigs env st cfgs).sampleRate =
      ((cfgs.getLast?).map (fun c => c.1.getD 48000)).getD st.sampleRate ∧
    (runConfigs env st cfgs).isFloat32 =
      ((cfgs.getLast?).map (fun c => c.2.1.getD false)).getD st.isFloat32 ∧
    (runConfigs env st cfgs).userTimezone =
      (if st.userTimezone = "UTC" then
        ((cfgs.filterMap (fun c => c.2.2)).find?
          (fun t => decide (t ≠ "" ∧ t ≠ "UTC"))).getD "UTC"
      else st.userTimezone) ∧
    (runConfigs env st cfgs).done = false := by
  induction cfgs generalizing st with
  | nil =>
    refine ⟨rfl, rfl, ?_, h⟩
    by_cases htz : st.userTimezone = "UTC" <;> simp [runConfigs, htz]
  | cons c cs ih =>
    obtain ⟨sr, f32, tzo⟩ := c
    have hstep : runConfigs env st ((sr, f32, tzo) :: cs) =
        runConfigs env (applyAudioConfig st sr f32 tzo) cs := by
      rw [runConfigs, List.foldl_cons, sessionStep_config env st sr f32 tzo h]
      rfl
    obtain ⟨har, haf, hat, had⟩ := applyAudioConfig_fields st sr f32 tzo
    have hd' : (applyAudioConfig st sr f32 tzo).done = false := had.trans h
    obtain ⟨ihr, ihf, iht, ihd⟩ := ih (applyAudioConfig st sr f32 tzo) hd'
    rw [hstep]
    refine ⟨?_, ?_, ?_, ihd⟩
    · rw [ihr, har]
      cases cs with
      | nil => rfl
      | cons c2 cs2 =>
        obtain ⟨x, hx⟩ := Option.isSome_iff_exists.mp
          (List.getLast?_isSome.mpr (List.cons_ne_nil c2 cs2))
        rw [List.getLast?_cons_cons, hx]
        rfl
    · rw [ihf, haf]
      cases cs with
      | nil => rfl
      | cons c2 cs2 =>
        obtain ⟨x, hx⟩ := Option.isSome_iff_exists.mp
          (List.getLast?_isSome.mpr (List.cons_ne_nil c2 cs2))
        rw [List.getLast?_cons_cons, hx]
        rfl
    · rw [iht, hat]
      by_cases hstz : st.userTimezone = "UTC"
      · cases tzo with
        | none => simp [hstz, List.filterMap_cons]
        | some t =>
          by_cases hte : t = ""
          · simp [hstz, hte, List.filterMap_cons, List.find?]
          · by_cases htu : t = "UTC"
            · simp [hstz, hte, htu, List.filterMap_cons, List.find?]
            · simp [hstz, hte, htu, List.filterMap_cons, List.find?]
      · cases tzo with
        | none => simp [hstz]
        | some t => simp [hstz]

theorem handleStopRecording_nonempty (env : Env) (st : SessionState)
    (h : st.audioBuffer.isEmpty = false) :
    handleStopRecording env st =
      afterSave env { st with events := st.events ++ [ServerEvent.processingStarted] }
        (save_audio_to_wav st.audioBuffer.flatten st.sampleRate st.isFloat32
          env.floatDecode) := by
  rw [handleStopRecording]
  simp only [h, Bool.false_eq_true, if_false]

theorem runSession_scenarioA_eq :
    runSession nullEnv scenarioAMsgs =
      { sampleRate := 48000
        isFloat32 := false
        userTimezone := "UTC"
        audioBuffer := [silentChunk]
        callStatus := "in_progress"
        events := [ServerEvent.connected, ServerEvent.processingStarted,
          ServerEvent.error "Audio is silent or corrupted (max amplitude: 0). Please check microphone."]
        calendarCalls := []
        done := true } := by
  have hsc : silentChunk = List.replicate (2 * 144000) 0 := rfl
  have hsave := save_silence_error 144000 (by norm_num) 48000 nullEnv.floatDecode
  have hb : silentChunk.length > 0 := by
    rw [hsc, List.length_replicate]; norm_num
  rw [runSession, scenarioAMsgs, List.foldl_cons, List.foldl_cons, List.foldl_cons,
    List.foldl_nil]
  have e1 : sessionStep nullEnv {} (ClientMsg.audioConfig (some 48000) (some false) none) =
      ({} : SessionState) := rfl
  rw [e1, sessionStep_chunk nullEnv {} silentChunk rfl hb]
  have e2 : ({ ({} : SessionState) with
      audioBuffer := ({} : SessionState).audioBuffer ++ [silentChunk] }) =
      ({ audioBuffer := [silentChunk] } : SessionState) := rfl
  rw [e2]
  rw [sessionStep_stop nullEnv ({ audioBuffer := [silentChunk] } : SessionState) rfl,
    handleStopRecording_nonempty nullEnv
      ({ audioBuffer := [silentChunk] } : SessionState) rfl]
  rw [show ({ audioBuffer := [silentChunk] } : SessionState).audioBuffer
      = [silentChunk] from rfl,
    show ({ audioBuffer := [silentChunk] } : SessionState).sampleRate = 48000 from rfl,
    show ({ audioBuffer := [silentChunk] } : SessionState).isFloat32 = false from rfl]
  have e4 : ([silentChunk] : List (List Nat)).flatten = List.replicate (2 * 144000) 0 := by
    rw [← hsc]; exact List.flatten_singleton silentChunk
  rw [e4, hsave]
  rfl

theorem TaskStore.find_set (store : TaskStore) (id : Nat) (t t' : TaskRec)
    (h : store.find id = some t) : (store.set id t').find id = some t' := by
  induction store with
  | nil => simp [TaskStore.find] at h
  | cons p rest ih =>
    by_cases hp : p.1 = id
    · simp [TaskStore.find, TaskStore.set, List.find?_cons, hp]
    · have h' : TaskStore.find rest id = some t := by
        simpa [TaskStore.find, List.find?_cons, hp] using h
      simpa [TaskStore.find, TaskStore.set, List.find?_cons, hp] using ih h'

/-! ## Claim C2 — approval of an already-resolved task -/

/-- Claim C2, counterexample.  The claim states that a second
approval/rejection attempt on a task whose status is already resolved
(here `"approved"`) is rejected as a conflict and leaves the status
unchanged.  On the code it is not: rejecting the already-approved task 1
succeeds (no conflict error) and overwrites its status with
`"cancelled"`. -/
theorem approve_task_resolved_cex :
    (approve_task [(1, { status := "approved", approved_at := some "t0" })] 1
        false none "t1").2 =
      Except.ok { task_id := 1, status := "cancelled", message := "Task rejected" } ∧
    TaskStore.find (approve_task
        [(1, { status := "approved", approved_at := some "t0" })] 1
        false none "t1").1 1 =
      some { status := "cancelled", approved_at := some "t0" } ∧
    ("cancelled" : String) ≠ "approved" := by
  refine ⟨rfl, rfl, by decide⟩

/-- Claim C2, amended.  The approval endpoint performs no check of the
task's current status: an approval (rejection) attempt on any existing
task — whatever its status, resolved or not — succeeds and overwrites the
status with `"approved"` (`"cancelled"`); a second attempt is not rejected
as a conflict but silently overwrites the first. -/
theorem approve_task_overwrites_status (store : TaskStore) (id : Nat)
    (t : TaskRec) (approved : Bool) (reason : Option String) (now : String)
    (h : store.find id = some t) :
    (∃ resp, (approve_task store id approved reason now).2 = Except.ok resp ∧
      resp.status = (if approved then "approved" else "cancelled")) ∧
    ((approve_task store id approved reason now).1.find id).map TaskRec.status =
      some (if approved then "approved" else "cancelled") := by
  cases approved <;>
    simp only [approve_task, h] <;>
    refine ⟨⟨_, rfl, rfl⟩, ?_⟩ <;>
    rw [TaskStore.find_set store id t _ h] <;> rfl

/-- Witness for `approve_task_overwrites_status` at a concrete resolved
store. -/
theorem approve_task_overwrites_status_witness :
    TaskStore.find [(1, ({ status := "executed" } : TaskRec))] 1 =
      some { status := "executed" } ∧
    ((∃ resp, (approve_task [(1, ({ status := "executed" } : TaskRec))] 1 true
        none "t2").2 = Except.ok resp ∧
      resp.status = (if true then "approved" else "cancelled")) ∧
    ((approve_task [(1, ({ status := "executed" } : TaskRec))] 1 true
        none "t2").1.find 1).map TaskRec.status =
      some (if true then "approved" else "cancelled")) :=
  ⟨by decide, approve_task_overwrites_status
    [(1, ({ status := "executed" } : TaskRec))] 1
    ({ status := "executed" } : TaskRec) true none "t2" (by decide)⟩

/-! ## Claim C10 — approval of a missing task id -/

/-- Claim C10: approving or rejecting a task id for which no task exists
returns the 404 not-found error, and the task store is returned unchanged
— no task record is modified. -/
theorem approve_task_not_found (store : TaskStore) (id : Nat)
    (approved : Bool) (reason : Option String) (now : String)
    (h : store.find id = none) :
    approve_task store id approved reason now =
      (store, Except.error { statusCode := 404
                             detail := "Task with ID " ++ toString id ++ " not found" }) := by
  simp only [approve_task, h]

/-- Witness for `approve_task_not_found`: an empty store holds no task
7. -/
theorem approve_task_not_found_witness :
    TaskStore.find [] 7 = none ∧
    approve_task [] 7 true none "t0" =
      ([], Except.error { statusCode := 404
                          detail := "Task with ID " ++ toString 7 ++ " not found" }) :=
  ⟨by decide, approve_task_not_found [] 7 true none "t0" (by decide)⟩

/-! ## Claim C4 — insight extraction always yields every field -/

/-- Claim C4, counterexample.  The claim states that on a backend
response with missing keys no field of the result is ever absent or
null.  The fill loop (ai_service.py line 99) checks key presence only,
so the response `\x7b"title": null\x7d` — parseable, with seven missing
keys that do get defaulted — carries `title: None` through: the returned
object has a null field where the claim requires the default
"Meeting Analysis". -/
theorem extract_insights_null_carried_cex :
    (extract_meeting_insights longTranscript (some nullTitleResp)).title = none ∧
    (extract_meeting_insights longTranscript (some nullTitleResp)).attendees = some [] ∧
    (extract_meeting_insights longTranscript (some nullTitleResp)).sentiment =
      some { overall_sentiment := "UNKNOWN", reasoning := "Analysis could not be completed." } ∧
    (none : Option String) ≠ some "Meeting Analysis" := by
  refine ⟨rfl, rfl, rfl, by decide⟩

/-- Claim C4, amended.  The extraction never raises, and a malformed,
empty or unparseable backend response yields the full default object
(no null anywhere); on a parsed response every missing documented key is
filled with its specified default value (placeholder title/summary,
`"UNKNOWN"` sentiment, empty lists) — but the fill tests key presence
only, so a key that is present with the JSON value `null` is carried
through as null: a field of the result is null exactly when the backend
sent that key explicitly null. -/
theorem extract_insights_fill_behaviour (r : RawInsights)
    (resp : Option RawInsights) (t : TranscriptResult) :
    fill_insights none = default_insights ∧
    (fill_insights (some r)).title = r.title.filled (some "Meeting Analysis") ∧
    (fill_insights (some r)).summary = r.summary.filled
      (some "### Abstract\nNo summary could be generated.\n\n### Key Points\n- Analysis could not be completed.\n\n### Next Steps\nN/A") ∧
    (fill_insights (some r)).sentiment = r.sentiment.filled
      (some { overall_sentiment := "UNKNOWN", reasoning := "Analysis could not be completed." }) ∧
    (fill_insights (some r)).attendees = r.attendees.filled (some []) ∧
    (fill_insights (some r)).action_items = r.action_items.filled (some []) ∧
    (fill_insights (some r)).key_decisions = r.key_decisions.filled (some []) ∧
    (fill_insights (some r)).questions_asked = r.questions_asked.filled (some []) ∧
    (fill_insights (some r)).chapters = r.chapters.filled (some []) ∧
    ((fill_insights (some r)).title = none ↔ r.title = JField.null) ∧
    ((fill_insights (some r)).summary = none ↔ r.summary = JField.null) ∧
    ((fill_insights (some r)).sentiment = none ↔ r.sentiment = JField.null) ∧
    ((fill_insights (some r)).attendees = none ↔ r.attendees = JField.null) ∧
    ((fill_insights (some r)).action_items = none ↔ r.action_items = JField.null) ∧
    ((fill_insights (some r)).key_decisions = none ↔ r.key_decisions = JField.null) ∧
    ((fill_insights (some r)).questions_asked = none ↔ r.questions_asked = JField.null) ∧
    ((fill_insights (some r)).chapters = none ↔ r.chapters = JField.null) ∧
    (extract_meeting_insights t resp = default_insights ∨
      extract_meeting_insights t resp = fill_insights resp) := by
  refine ⟨rfl, rfl, rfl, rfl, rfl, rfl, rfl, rfl, rfl,
    ?_, ?_, ?_, ?_, ?_, ?_, ?_, ?_, ?_⟩
  all_goals
    first
    | (cases hf : r.title <;>
        (simp [fill_insights, JField.filled, default_insights, hf]; done))
    | (cases hf : r.summary <;>
        (simp [fill_insights, JField.filled, default_insights, hf]; done))
    | (cases hf : r.sentiment <;>
        (simp [fill_insights, JField.filled, default_insights, hf]; done))
    | (cases hf : r.attendees <;>
        (simp [fill_insights, JField.filled, default_insights, hf]; done))
    | (cases hf : r.action_items <;>
        (simp [fill_insights, JField.filled, default_insights, hf]; done))
    | (cases hf : r.key_decisions <;>
        (simp [fill_insights, JField.filled, default_insights, hf]; done))
    | (cases hf : r.questions_asked <;>
        (simp [fill_insights, JField.filled, default_insights, hf]; done))
    | (cases hf : r.chapters <;>
        (simp [fill_insights, JField.filled, default_insights, hf]; done))
    | (by_cases h : (insightsFullText t).length < 20 <;>
        simp [extract_meeting_insights, h])

/-! ## Claim C5 — empty speech-to-text result is not an error -/

/-- Claim C5: when the speech-to-text backend returns an empty result
list, `transcribe_audio_file` does not fail: it returns a
`TranscriptResult` with empty text and zero utterances, and feeding that
result to `extract_meeting_insights` yields the default (degraded)
insights object for every backend response, instead of aborting. -/
theorem transcribe_empty_result_ok (d : ℚ) (resp : Option RawInsights) :
    ∃ tr, transcribe_audio_file [] d = Except.ok tr ∧
      tr.text = "" ∧ tr.utterances = [] ∧
      extract_meeting_insights tr resp = default_insights := by
  refine ⟨_, rfl, rfl, rfl, ?_⟩
  rfl

/-! ## Claim C9 — totality of actionable-task extraction -/

/-- Claim C9, counterexample.  The claim states the extraction returns a
list for every input.  But when the backend responds with parseable JSON
that is not a list (here the empty JSON object), the code returns that
parsed value unchanged — a dict, not a list. -/
theorem extract_actionable_tasks_nonlist_cex :
    (extract_actionable_tasks "schedule a meeting tomorrow"
      (some (Json.obj []))).isArr = false := by
  rfl

/-- Claim C9, amended.  `extract_actionable_tasks` never raises and
returns the empty list when the input text is empty, and the empty list
whenever the backend call fails or its response is not parseable JSON;
but on a parseable response it returns the parsed JSON value as-is, which
is a list only when the backend respects the requested schema. -/
theorem extract_actionable_tasks_total (t : String) (resp : Option Json)
    (j : Json) :
    extract_actionable_tasks "" resp = Json.arr [] ∧
    extract_actionable_tasks t none = Json.arr [] ∧
    extract_actionable_tasks t (some j) = (if t = "" then Json.arr [] else j) := by
  refine ⟨by simp [extract_actionable_tasks], ?_, ?_⟩ <;>
    by_cases h : t = "" <;> simp [extract_actionable_tasks, h]

/-! ## Claim C7 — resampler output length -/

/-- Claim C7: for every source sample buffer and positive source rate `r`,
the linear-interpolation resampler to 16000 Hz produces an output whose
length is within 1 of `n * 16000 / r` (the ceil neighbour index used by
the interpolation is clamped to the last valid input sample by
definition of `resampleTo16k`). -/
theorem resample_length_within_one (samples : List Int) (r : Nat)
    (hr : 0 < r) :
    |((resampleTo16k samples r).length : ℚ) - (samples.length : ℚ) * 16000 / r| ≤ 1 := by
  have hlen : (resampleTo16k samples r).length = samples.length * 16000 / r := by
    simp [resampleTo16k]
  rw [hlen]
  have hrq : (0 : ℚ) < r := by exact_mod_cast hr
  have hcast : ((samples.length * 16000 : ℕ) : ℚ) = (samples.length : ℚ) * 16000 := by
    push_cast; ring
  have h1 : ((samples.length * 16000 / r : ℕ) : ℚ) ≤ (samples.length : ℚ) * 16000 / r := by
    rw [← hcast]; exact Nat.cast_div_le
  have hdm := Nat.div_add_mod (samples.length * 16000) r
  have hmod : samples.length * 16000 % r < r := Nat.mod_lt _ hr
  have h2 : (samples.length : ℚ) * 16000 / r < ((samples.length * 16000 / r : ℕ) : ℚ) + 1 := by
    rw [div_lt_iff₀ hrq, ← hcast]
    have hq : ((samples.length * 16000 : ℕ) : ℚ) =
        (r : ℚ) * ((samples.length * 16000 / r : ℕ) : ℚ) +
          ((samples.length * 16000 % r : ℕ) : ℚ) := by
      exact_mod_cast hdm.symm
    have hmq : ((samples.length * 16000 % r : ℕ) : ℚ) < (r : ℚ) := by
      exact_mod_cast hmod
    rw [hq]; ring_nf; linarith
  rw [abs_le]
  constructor <;> linarith

/-- Witness for `resample_length_within_one` at a concrete 48 kHz
buffer. -/
theorem resample_length_within_one_witness :
    0 < 48000 ∧
    |((resampleTo16k [5, -3, 12, 0, 7, 7, 2] 48000).length : ℚ) -
      (([5, -3, 12, 0, 7, 7, 2] : List Int).length : ℚ) * 16000 / 48000| ≤ 1 :=
  ⟨by decide, resample_length_within_one [5, -3, 12, 0, 7, 7, 2] 48000 (by decide)⟩

/-! ## Claim C8 — Float32 sample conversion -/

/-- Claim C8, counterexample.  The claim states each clamped Float32
sample is converted with `round`; the code uses Python `int()`, which
truncates toward zero.  At the sample value 1/2 (exactly representable in
Float32) the code yields 16383, while the claimed
`round(clamp(x,-1,1) * 32767)` is 16384. -/
theorem convert_float32_half_cex :
    convert_float32_to_int16 [1 / 2] = [16383] ∧
    round (clampUnit (1 / 2) * 32767) = 16384 ∧
    convert_float32_to_int16 [1 / 2] ≠ [round (clampUnit (1 / 2) * 32767)] := by
  refine ⟨by norm_num [convert_float32_to_int16, clampUnit, pyInt], ?_, ?_⟩ <;>
    norm_num [convert_float32_to_int16, clampUnit, pyInt, round_eq]

/-- Claim C8, amended.  Each decoded Float32 sample is converted to
`int(clamp(x,-1,1) * 32767)` — truncation toward zero, which is within
one unit of the claimed rounding — and a trailing incomplete (fewer than
four bytes) sample is dropped before conversion: the converted buffer is
the longest 4-byte-aligned prefix. -/
theorem convert_float32_truncates (x : ℚ) (bs : List Nat) :
    convert_float32_to_int16 [x] = [pyInt (clampUnit x * 32767)] ∧
    |pyInt (clampUnit x * 32767) - round (clampUnit x * 32767)| ≤ 1 ∧
    (trimToFloat32Boundary bs).length = bs.length - bs.length % 4 ∧
    bs = trimToFloat32Boundary bs ++ bs.drop (bs.length - bs.length % 4) := by
  refine ⟨rfl, ?_, ?_, ?_⟩
  · set q : ℚ := clampUnit x * 32767 with hq
    have hround : round q = ⌊q + 1 / 2⌋ := round_eq q
    have hfl : ⌊q⌋ ≤ ⌊q + 1 / 2⌋ := Int.floor_le_floor (by linarith)
    have hfu : ⌊q + 1 / 2⌋ ≤ ⌊q⌋ + 1 := by
      have h1 : (q + 1 / 2 : ℚ) ≤ q + 1 := by linarith
      have := Int.floor_le_floor h1
      simpa [Int.floor_add_one] using this
    have hceil1 : ⌊q⌋ ≤ ⌈q⌉ := Int.floor_le_ceil q
    have hceil2 : ⌈q⌉ ≤ ⌊q⌋ + 1 := Int.ceil_le_floor_add_one q
    rw [abs_le]
    unfold pyInt
    split <;> omega
  · simp only [trimToFloat32Boundary, List.length_take]
    omega
  · simp [trimToFloat32Boundary]

/-! ## Claim C1 — silent audio aborts processing -/

/-- Claim C1, counterexample.  The claim states that after scenario A
(48 kHz Int16 config, three seconds of silence, `stop_recording`) the
session's persisted state becomes FAILED.  It does not: the silent-audio
`ValueError` is caught by the inner `except ValueError` handler, which
only sends the error event and breaks the loop, so the persisted call
status is still `"in_progress"`. -/
theorem scenarioA_status_not_failed_cex :
    (runSession nullEnv scenarioAMsgs).callStatus = "in_progress" ∧
    (runSession nullEnv scenarioAMsgs).callStatus ≠ "failed" := by
  rw [runSession_scenarioA_eq]
  exact ⟨rfl, by decide⟩

/-- Claim C1, amended.  On silent audio (scenario A) the PROCESSING stage
does abort and the client receives exactly one `error` event whose
message indicates silent/corrupted audio, but the session's persisted
state remains `"in_progress"` — it is not moved to FAILED. -/
theorem scenarioA_silent_audio_behaviour :
    (runSession nullEnv scenarioAMsgs).events =
      [ServerEvent.connected, ServerEvent.processingStarted,
        ServerEvent.error "Audio is silent or corrupted (max amplitude: 0). Please check microphone."] ∧
    (runSession nullEnv scenarioAMsgs).events.countP ServerEvent.isError = 1 ∧
    (runSession nullEnv scenarioAMsgs).callStatus = "in_progress" ∧
    (runSession nullEnv scenarioAMsgs).done = true := by
  rw [runSession_scenarioA_eq]
  exact ⟨rfl, by decide, rfl, rfl⟩

/-! ## Claim C3 — audio_config locking -/

/-- Claim C3, counterexample.  The claim states every audio_config after
the first is ignored, so the session's sampleRate and isFloat32 equal the
first message's values.  They do not: a second config (44100 Hz, Float32)
overwrites both, and only the timezone keeps the first value. -/
theorem audio_config_relock_cex :
    (runSession nullEnv twoConfigMsgs).sampleRate = 44100 ∧
    (runSession nullEnv twoConfigMsgs).isFloat32 = true ∧
    (runSession nullEnv twoConfigMsgs).userTimezone = "America/New_York" ∧
    (44100 : ℕ) ≠ 48000 := by
  decide

/-- Claim C3, amended.  Only the timezone is locked on first receipt:
after any sequence of audio_config messages the session's timezone equals
the first received timezone value that is non-empty and differs from the
default `"UTC"` (or `"UTC"` if there is none), while sampleRate and
isFloat32 always take the values of the last config message (with
defaults 48000 and Int16 for absent keys). -/
theorem audio_config_only_timezone_locked (env : Env)
    (cfgs : List (Option Nat × Option Bool × Option String)) :
    (runConfigs env {} cfgs).sampleRate =
      ((cfgs.getLast?).map (fun c => c.1.getD 48000)).getD 48000 ∧
    (runConfigs env {} cfgs).isFloat32 =
      ((cfgs.getLast?).map (fun c => c.2.1.getD false)).getD false ∧
    (runConfigs env {} cfgs).userTimezone =
      ((cfgs.filterMap (fun c => c.2.2)).find?
        (fun t => decide (t ≠ "" ∧ t ≠ "UTC"))).getD "UTC" ∧
    runSession env (cfgs.map (fun c => ClientMsg.audioConfig c.1 c.2.1 c.2.2)) =
      runConfigs env {} cfgs := by
  obtain ⟨hr, hf, ht, _⟩ := runConfigs_fields env cfgs {} rfl
  refine ⟨hr, hf, by rw [ht]; rfl, ?_⟩
  rw [runSession, runConfigs, List.foldl_map]

/-! ## Claim C6 — naive start times are localized -/

/-- Claim C6: a CREATE_CALENDAR_EVENT intent with naive start time
"2025-06-10T15:00:00" in a session whose timezone was locked to
America/New_York dispatches exactly one create-event call, and its
normalized start instant is 19:00 UTC on 2025-06-10 — not 15:00 UTC: the
dispatcher localizes the naive wall time with the session timezone
instead of treating it as UTC. -/
theorem scenarioC_calendar_start_localized :
    (runSession scenarioCEnv scenarioCMsgs).calendarCalls.map
        (fun c => c.startInstantUTCMinutes) =
      [NaiveDateTime.toMinutes ⟨2025, 6, 10, 19, 0, 0⟩] ∧
    (runSession scenarioCEnv scenarioCMsgs).calendarCalls.map
        (fun c => c.timezone) = ["America/New_York"] ∧
    NaiveDateTime.toMinutes ⟨2025, 6, 10, 19, 0, 0⟩ ≠
      NaiveDateTime.toMinutes ⟨2025, 6, 10, 15, 0, 0⟩ := by
  decide

end Samwaad
